import Mathlib

/-!
Verification of the primativecamp location-search service and campsite CSV
parser. The definitions below are a shallow embedding of the TypeScript
source (`geocodingService.ts`, `campsiteService.ts`):

* JS numbers that originate from `parseFloat` on upstream numeric strings are
  modelled as rationals (`ℚ`); an upstream field that may be absent or
  unparsable is modelled as an `Option`.
* JS string fields that may be `undefined` and are only consumed through
  `x || ''`-style coalescing (`display_name`, `type`, `class`,
  `address.state`) are modelled as `String` with `""` standing for absence;
  this yields the same observable behaviour for every operation the code
  performs on them (`includes`, `===` comparison, `x || 'place'`).
* The `Map` used as the query cache is modelled as an association list where
  `set` prepends and `lookup` finds the most recent binding.
* `async` control flow is modelled by passing the upstream fetch outcome as
  an explicit argument and returning the new service state; wall-clock time
  is an explicit `ℤ` argument (milliseconds).
-/

namespace PrimCamp

/-- Containment of a character-list pattern in a character list, scanning
left to right; `includesAux pat s` is `true` iff `pat` occurs contiguously
in `s`.  This is JS `String.prototype.includes` on the underlying chars. -/
def includesAux (pat : List Char) : List Char → Bool
  | [] => pat.isEmpty
  | c :: cs => pat.isPrefixOf (c :: cs) || includesAux pat cs

/-- JS `s.includes(pat)`. -/
def strIncludes (s pat : String) : Bool :=
  includesAux pat.data s.data

/-- JS `s.toLowerCase()`, modelled character-wise (coincides with it on the
ASCII data handled here). -/
def jsToLower (s : String) : String :=
  ⟨s.data.map Char.toLower⟩

/-- JS `s.trim()`: strip leading and trailing whitespace (coincides with it
on the ASCII data handled here). -/
def jsTrim (s : String) : String :=
  ⟨((s.data.dropWhile Char.isWhitespace).reverse.dropWhile
      Char.isWhitespace).reverse⟩

/-- The four-way UI grouping computed by the service
(`featureCategory` field of `LocationResult`). -/
inductive FeatureCategory where
  | administrative
  | natural
  | water
  | recreation
  deriving DecidableEq, Repr

/-- The `LocationResult` interface of `geocodingService.ts`: a normalized
candidate location.  `bbox` is `[west, south, east, north]`. -/
structure LocationResult where
  displayName : String
  latitude : ℚ
  longitude : ℚ
  bbox : Option (ℚ × ℚ × ℚ × ℚ)
  importance : ℚ
  type : String
  featureCategory : FeatureCategory
  icon : String
  deriving DecidableEq, Repr

/-- The `code` field of `GeocodingError`. -/
inductive GeocodingCode where
  | NETWORK_ERROR
  | NO_RESULTS
  | API_ERROR
  | RATE_LIMIT
  deriving DecidableEq, Repr

/-- The `GeocodingError` interface: a tagged failure. -/
structure GeocodingError where
  message : String
  code : GeocodingCode
  deriving DecidableEq, Repr

/-- One raw record of the upstream geocoder's JSON response.
`boundingbox` is in upstream order `(south, north, west, east)`;
`addressState` is `(item.address || {}).state` with `""` for absence. -/
structure RawItem where
  display_name : String
  lat : ℚ
  lon : ℚ
  type : String
  «class» : String
  addressState : String
  boundingbox : Option (ℚ × ℚ × ℚ × ℚ)
  importance : Option ℚ
  deriving DecidableEq, Repr

/-- The expanded `validTypes` allow-list of the main `searchLocation`
filter: administrative place types plus natural/recreational feature
types. -/
def validTypes : List String :=
  ["city", "town", "village", "hamlet", "county", "state",
   "municipality", "borough", "administrative", "locality",
   "lake", "peak", "forest", "wood", "nature_reserve", "protected_area",
   "park", "island", "mountain", "water"]

/-- The expanded `validClasses` allow-list of the main `searchLocation`
filter: administrative classes plus natural feature classes. -/
def validClasses : List String :=
  ["place", "administrative", "boundary", "natural", "water", "leisure"]

/-- The `isInNY` region-membership test of the main filter: the lower-cased
display label contains one of the fixed NY markers, or the structured
address state equals `"New York"` or `"NY"`. -/
def isInNY (item : RawItem) : Bool :=
  let displayName := jsToLower item.display_name
  strIncludes displayName "new york" ||
    strIncludes displayName ", ny" ||
    strIncludes displayName " ny " ||
    strIncludes displayName "ny," ||
    item.addressState == "New York" ||
    item.addressState == "NY"

/-- The `isRelevantType` type/class relevance test of the main filter. -/
def isRelevantType (item : RawItem) : Bool :=
  validTypes.contains item.type || validClasses.contains item.«class»

/-- The predicate of the main `data.filter(...)` call:
`isInNY && isRelevantType`. -/
def searchKeep (item : RawItem) : Bool :=
  isInNY item && isRelevantType item

/-- Reordering of the upstream bounding box from `(south, north, west, east)`
to `(west, south, east, north)`, as done by the three `.map` bodies
(`boundingbox[2], boundingbox[0], boundingbox[3], boundingbox[1]`). -/
def reorderBbox : Option (ℚ × ℚ × ℚ × ℚ) → Option (ℚ × ℚ × ℚ × ℚ)
  | none => none
  | some (s, n, w, e) => some (w, s, e, n)

/-- The `.map` body of the main pipeline: field-by-field transform of a kept
raw record into a `LocationResult`, with the first-match-wins
category/icon chain. -/
def toLocationResult (item : RawItem) : LocationResult :=
  let fcIcon : FeatureCategory × String :=
    if item.«class» == "natural" then
      (.natural, if item.type == "peak" then "🏔️" else "🌲")
    else if item.«class» == "water" then (.water, "🌊")
    else if item.«class» == "leisure" then (.recreation, "🏡")
    else if item.type == "protected_area" || item.type == "nature_reserve" then
      (.natural, "🌲")
    else if item.type == "park" then (.recreation, "🏞️")
    else (.administrative, "🏢")
  { displayName := item.display_name
    latitude := item.lat
    longitude := item.lon
    bbox := reorderBbox item.boundingbox
    importance := item.importance.getD 0
    type := if item.type == "" then "place" else item.type
    featureCategory := fcIcon.1
    icon := fcIcon.2 }

/-- The comparator of `.sort((a, b) => b.importance - a.importance)` read as
a stable ordering predicate: `a` may precede `b` iff
`b.importance ≤ a.importance`. -/
def importanceLE (a b : LocationResult) : Bool :=
  decide (b.importance ≤ a.importance)

/-- The main pipeline of `searchLocation` applied to the raw upstream
response: filter (region AND type/class), map, stable sort by descending
importance. -/
def searchResults (data : List RawItem) : List LocationResult :=
  ((data.filter searchKeep).map toLocationResult).mergeSort importanceLE

/-- The `validTypes` allow-list of the fallback filter
(administrative place types only). -/
def fallbackValidTypes : List String :=
  ["city", "town", "village", "hamlet", "county", "state",
   "municipality", "borough", "administrative", "locality"]

/-- The `validClasses` allow-list of the fallback filter
(administrative classes only). -/
def fallbackValidClasses : List String :=
  ["place", "administrative", "boundary"]

/-- The predicate of the fallback `data.filter(...)` call: type/class test
only, against the fallback allow-lists. -/
def fallbackKeep (item : RawItem) : Bool :=
  fallbackValidTypes.contains item.type ||
    fallbackValidClasses.contains item.«class»

/-- The `.map` body of the fallback pipeline: display name suffixed with
`" (Outside NY)"`, category forced to `administrative`, icon forced to the
default. -/
def toFallbackResult (item : RawItem) : LocationResult :=
  { displayName := item.display_name ++ " (Outside NY)"
    latitude := item.lat
    longitude := item.lon
    bbox := reorderBbox item.boundingbox
    importance := item.importance.getD 0
    type := if item.type == "" then "place" else item.type
    featureCategory := .administrative
    icon := "🏢" }

/-- The fallback pipeline of `searchLocation`: re-filter the raw response by
type/class only (fallback allow-lists), take the first 3, map. -/
def fallbackResults (data : List RawItem) : List LocationResult :=
  ((data.filter fallbackKeep).take 3).map toFallbackResult

/-- `minRequestInterval`: 1 second between upstream requests. -/
def minRequestInterval : ℤ := 1000

/-- The sleep duration of `throttleRequest` given the shared
`lastRequestTime` marker and the current time: the remaining delta when the
elapsed time is below the minimum interval, else zero. -/
def throttleDelay (last now : ℤ) : ℤ :=
  if now - last < minRequestInterval then minRequestInterval - (now - last)
  else 0

/-- The wall-clock time at which `throttleRequest` returns (and at which the
upstream request is dispatched); also the new value of the shared
`lastRequestTime` marker. -/
def dispatchTime (last now : ℤ) : ℤ :=
  now + throttleDelay last now

/-- The mutable instance state of `GeocodingService`: the query cache and
the shared `lastRequestTime` marker. -/
structure ServiceState where
  cache : List (String × List LocationResult)
  lastRequestTime : ℤ
  deriving DecidableEq, Repr

/-- The cache key of `searchLocation`: `query.toLowerCase().trim()`. -/
def cacheKey (query : String) : String :=
  jsTrim (jsToLower query)

/-- `response.ok` of the Fetch API: status in the range 200–299. -/
def respOk (status : ℕ) : Bool :=
  decide (200 ≤ status) && decide (status ≤ 299)

/-- Outcome of the upstream forward-search fetch: a transport-level
rejection, or an HTTP response with a status and a parsed JSON body. -/
inductive FetchOutcome where
  | failure
  | response (status : ℕ) (data : List RawItem)

/-- Observable effects of one `searchLocation` call: its returned value or
thrown error, the service state afterwards, the number of upstream requests
issued, and the throttle sleep in milliseconds. -/
structure SearchStep where
  result : Except GeocodingError (List LocationResult)
  state : ServiceState
  upstreamRequests : ℕ
  sleepMs : ℤ
  deriving Repr

/-- One call of `searchLocation(query)`, with the current time and the
upstream fetch outcome passed explicitly. -/
def searchLocation (st : ServiceState) (query : String) (now : ℤ)
    (outcome : FetchOutcome) : SearchStep :=
  if jsTrim query = "" then ⟨.ok [], st, 0, 0⟩
  else
    match st.cache.lookup (cacheKey query) with
    | some cached => ⟨.ok cached, st, 0, 0⟩
    | none =>
      let sleep := throttleDelay st.lastRequestTime now
      let st1 : ServiceState := ⟨st.cache, dispatchTime st.lastRequestTime now⟩
      match outcome with
      | .failure =>
        ⟨.error ⟨"Unable to search for location.", .NETWORK_ERROR⟩, st1, 1, sleep⟩
      | .response status data =>
        if respOk status = false then
          if status = 429 then
            ⟨.error ⟨"Too many requests. Please wait a moment.", .RATE_LIMIT⟩,
              st1, 1, sleep⟩
          else
            ⟨.error ⟨"Location search service unavailable.", .API_ERROR⟩,
              st1, 1, sleep⟩
        else
          let results := searchResults data
          if results.length = 0 ∧ 0 < data.length then
            let fallback := fallbackResults data
            if 0 < fallback.length then
              ⟨.ok fallback,
                ⟨(cacheKey query, fallback) :: st1.cache, st1.lastRequestTime⟩,
                1, sleep⟩
            else
              ⟨.ok results,
                ⟨(cacheKey query, results) :: st1.cache, st1.lastRequestTime⟩,
                1, sleep⟩
          else
            ⟨.ok results,
              ⟨(cacheKey query, results) :: st1.cache, st1.lastRequestTime⟩,
              1, sleep⟩

/-- `clearCache()`. -/
def clearCache (st : ServiceState) : ServiceState :=
  ⟨[], st.lastRequestTime⟩

/-- Outcome of the upstream reverse-geocode fetch. -/
inductive ReverseOutcome where
  | failure
  | response (status : ℕ) (data : RawItem)

/-- Observable effects of one `reverseGeocode` call. -/
structure ReverseStep where
  result : Option LocationResult
  state : ServiceState
  upstreamRequests : ℕ
  sleepMs : ℤ
  deriving Repr

/-- One call of `reverseGeocode(latitude, longitude)`.  The coordinates only
feed the request URL; the result is built from the response body. -/
def reverseGeocode (st : ServiceState) (latitude longitude : ℚ) (now : ℤ)
    (outcome : ReverseOutcome) : ReverseStep :=
  let sleep := throttleDelay st.lastRequestTime now
  let st1 : ServiceState := ⟨st.cache, dispatchTime st.lastRequestTime now⟩
  match outcome with
  | .failure => ⟨none, st1, 1, sleep⟩
  | .response status data =>
    if respOk status = false then ⟨none, st1, 1, sleep⟩
    else if data.display_name = "" then ⟨none, st1, 1, sleep⟩
    else
      ⟨some { displayName := data.display_name
              latitude := data.lat
              longitude := data.lon
              bbox := reorderBbox data.boundingbox
              importance := data.importance.getD 0
              type := if data.type == "" then "place" else data.type
              featureCategory := .administrative
              icon := "📍" },
        st1, 1, sleep⟩

/-- The `Campsite` interface (`types/Campsite.ts`). -/
structure Campsite where
  name : String
  stateLand : String
  latitude : ℚ
  longitude : ℚ
  address : String
  town : String
  county : String
  notes : String
  deriving DecidableEq, Repr

/-- One row produced by `Papa.parse(csvText, {header: true, ...}).data`:
string columns with `""` for absence, numeric columns already passed through
`parseFloat` with `none` for an absent or unparsable value (JS `NaN`). -/
structure CsvRow where
  Name : String
  StateLand : String
  Latitude : Option ℚ
  Longitude : Option ℚ
  Address : String
  Town : String
  County : String
  Note : String
  Notes : String
  deriving DecidableEq, Repr

/-- JS `parseFloat(x) || 0`: an absent/unparsable (`NaN`) or zero parse
yields `0`. -/
def jsNumOrZero : Option ℚ → ℚ
  | none => 0
  | some v => if v = 0 then 0 else v

/-- JS `a || b` on strings under the `""`-for-absent convention. -/
def jsStrOr (a b : String) : String :=
  if a = "" then b else a

/-- The `.map` body of `parseCampsiteCSV`. -/
def rowToCampsite (row : CsvRow) : Campsite :=
  { name := row.Name
    stateLand := row.StateLand
    latitude := jsNumOrZero row.Latitude
    longitude := jsNumOrZero row.Longitude
    address := row.Address
    town := row.Town
    county := row.County
    notes := jsStrOr row.Note row.Notes }

/-- `parseCampsiteCSV`, as a function of the parsed header rows (the output
of the external CSV library on the input text): map rows to `Campsite`
records, then drop records with a zero coordinate or a blank name. -/
def parseCampsiteCSV (rows : List CsvRow) : List Campsite :=
  (rows.map rowToCampsite).filter fun site =>
    decide (site.latitude ≠ 0) && decide (site.longitude ≠ 0) &&
      decide (jsTrim site.name ≠ "")


/-! ### Branch lemmas for `searchLocation` -/

theorem searchLocation_of_hit (st : ServiceState) (query : String)
    (l : List LocationResult) (now : ℤ) (outcome : FetchOutcome)
    (hq : jsTrim query ≠ "") (hc : st.cache.lookup (cacheKey query) = some l) :
    searchLocation st query now outcome = ⟨.ok l, st, 0, 0⟩ := by
  simp [searchLocation, hq, hc]

theorem searchLocation_of_failure (st : ServiceState) (query : String)
    (now : ℤ) (hq : jsTrim query ≠ "")
    (hc : st.cache.lookup (cacheKey query) = none) :
    searchLocation st query now .failure =
      ⟨.error ⟨"Unable to search for location.", .NETWORK_ERROR⟩,
        ⟨st.cache, dispatchTime st.lastRequestTime now⟩, 1,
        throttleDelay st.lastRequestTime now⟩ := by
  simp [searchLocation, hq, hc]

theorem searchLocation_of_429 (st : ServiceState) (query : String)
    (data : List RawItem) (now : ℤ) (hq : jsTrim query ≠ "")
    (hc : st.cache.lookup (cacheKey query) = none) :
    searchLocation st query now (.response 429 data) =
      ⟨.error ⟨"Too many requests. Please wait a moment.", .RATE_LIMIT⟩,
        ⟨st.cache, dispatchTime st.lastRequestTime now⟩, 1,
        throttleDelay st.lastRequestTime now⟩ := by
  simp [searchLocation, hq, hc, respOk]

theorem searchLocation_of_badStatus (st : ServiceState) (query : String)
    (status : ℕ) (data : List RawItem) (now : ℤ) (hq : jsTrim query ≠ "")
    (hc : st.cache.lookup (cacheKey query) = none)
    (hbad : respOk status = false) (h429 : status ≠ 429) :
    searchLocation st query now (.response status data) =
      ⟨.error ⟨"Location search service unavailable.", .API_ERROR⟩,
        ⟨st.cache, dispatchTime st.lastRequestTime now⟩, 1,
        throttleDelay st.lastRequestTime now⟩ := by
  simp [searchLocation, hq, hc, hbad, h429]

theorem searchLocation_of_ok (st : ServiceState) (query : String)
    (status : ℕ) (data : List RawItem) (now : ℤ) (hq : jsTrim query ≠ "")
    (hc : st.cache.lookup (cacheKey query) = none)
    (hok : respOk status = true) :
    searchLocation st query now (.response status data) =
      if searchResults data = [] ∧ data ≠ [] ∧ fallbackResults data ≠ [] then
        ⟨.ok (fallbackResults data),
          ⟨(cacheKey query, fallbackResults data) :: st.cache,
            dispatchTime st.lastRequestTime now⟩, 1,
          throttleDelay st.lastRequestTime now⟩
      else
        ⟨.ok (searchResults data),
          ⟨(cacheKey query, searchResults data) :: st.cache,
            dispatchTime st.lastRequestTime now⟩, 1,
          throttleDelay st.lastRequestTime now⟩ := by
  simp only [searchLocation, hq, hc, hok, Bool.true_eq_false]
  simp only [List.length_eq_zero, List.length_pos]
  by_cases h1 : searchResults data = [] <;>
    by_cases h2 : data ≠ [] <;>
      by_cases h3 : fallbackResults data ≠ [] <;>
        simp [h1, h2, h3]

theorem searchLocation_miss_effects (st : ServiceState) (query : String)
    (now : ℤ) (outcome : FetchOutcome) (hq : jsTrim query ≠ "")
    (hc : st.cache.lookup (cacheKey query) = none) :
    (searchLocation st query now outcome).upstreamRequests = 1 ∧
    (searchLocation st query now outcome).state.lastRequestTime =
      dispatchTime st.lastRequestTime now ∧
    (searchLocation st query now outcome).sleepMs =
      throttleDelay st.lastRequestTime now := by
  cases outcome with
  | failure => rw [searchLocation_of_failure st query now hq hc]
               exact ⟨rfl, rfl, rfl⟩
  | response status data =>
    rcases Bool.eq_false_or_eq_true (respOk status) with hok | hbad
    · rw [searchLocation_of_ok st query status data now hq hc hok]
      split <;> exact ⟨rfl, rfl, rfl⟩
    · by_cases h429 : status = 429
      · subst h429
        rw [searchLocation_of_429 st query data now hq hc]
        exact ⟨rfl, rfl, rfl⟩
      · rw [searchLocation_of_badStatus st query status data now hq hc hbad
          h429]
        exact ⟨rfl, rfl, rfl⟩

/-! ### The claims -/

/-- C8: for every query that trims to the empty string, `searchLocation`
returns `[]` immediately: no upstream request, no throttle sleep, and the
service state (cache and throttle marker) is untouched. -/
theorem C8_empty_query (st : ServiceState) (query : String) (now : ℤ)
    (outcome : FetchOutcome) (hq : jsTrim query = "") :
    searchLocation st query now outcome = ⟨.ok [], st, 0, 0⟩ := by
  simp [searchLocation, hq]

/-- Witness for C8 at the whitespace-only query `"   "`. -/
theorem C8_empty_query_witness :
    searchLocation ⟨[], 0⟩ "   " 0 .failure = ⟨.ok [], ⟨[], 0⟩, 0, 0⟩ :=
  C8_empty_query ⟨[], 0⟩ "   " 0 .failure (by decide)

/-- C2: the main `searchLocation` pipeline keeps a raw record iff it passes
BOTH the region membership test (lower-cased display label contains one of
the fixed NY markers, or the structured address state equals `"New York"`
or `"NY"`) AND the type/class relevance test (type in the expanded
administrative-plus-natural allow-list, or class in the expanded class
allow-list) — a conjunction, not a disjunction. -/
theorem C2_filter_region_and_type (data : List RawItem) (item : RawItem) :
    item ∈ data.filter searchKeep ↔
      item ∈ data ∧
        ((strIncludes (jsToLower item.display_name) "new york" = true ∨
          strIncludes (jsToLower item.display_name) ", ny" = true ∨
          strIncludes (jsToLower item.display_name) " ny " = true ∨
          strIncludes (jsToLower item.display_name) "ny," = true ∨
          item.addressState = "New York" ∨ item.addressState = "NY") ∧
         (item.type ∈ validTypes ∨ item.«class» ∈ validClasses)) := by
  simp [List.mem_filter, searchKeep, isInNY, isRelevantType, List.contains,
    and_assoc, or_assoc]

/-- C10: every `Campsite` record returned by `parseCampsiteCSV` has nonzero
latitude and longitude and a name that is nonempty after trimming; a missing
or unparsable coordinate is coerced to `0` by the row mapping, after which
the final filter removes the row. -/
theorem C10_parse_invariants (rows : List CsvRow) (site : Campsite)
    (h : site ∈ parseCampsiteCSV rows) :
    site.latitude ≠ 0 ∧ site.longitude ≠ 0 ∧ jsTrim site.name ≠ "" ∧
      (∀ row : CsvRow, row.Latitude = none → (rowToCampsite row).latitude = 0) ∧
      (∀ row : CsvRow, row.Longitude = none →
        (rowToCampsite row).longitude = 0) := by
  rcases List.mem_filter.mp h with ⟨-, hcond⟩
  simp only [Bool.and_eq_true, decide_eq_true_eq] at hcond
  refine ⟨hcond.1.1, hcond.1.2, hcond.2, ?_, ?_⟩
  · intro row hr; simp [rowToCampsite, jsNumOrZero, hr]
  · intro row hr; simp [rowToCampsite, jsNumOrZero, hr]

/-- A concrete CSV row (the valid row of the service tests, with integral
coordinates). -/
def testRow : CsvRow :=
  { Name := "Test Campsite", StateLand := "Test Forest"
    Latitude := some 44, Longitude := some (-75)
    Address := "123 Test Rd", Town := "Test Town", County := "Test County"
    Note := "", Notes := "" }

/-- Witness for C10 at a concrete parsed row list. -/
theorem C10_parse_invariants_witness :
    rowToCampsite testRow ∈ parseCampsiteCSV [testRow] ∧
      ((rowToCampsite testRow).latitude ≠ 0 ∧
        (rowToCampsite testRow).longitude ≠ 0 ∧
        jsTrim (rowToCampsite testRow).name ≠ "" ∧
        (∀ row : CsvRow, row.Latitude = none →
          (rowToCampsite row).latitude = 0) ∧
        (∀ row : CsvRow, row.Longitude = none →
          (rowToCampsite row).longitude = 0)) :=
  ⟨by decide, C10_parse_invariants [testRow] (rowToCampsite testRow) (by decide)⟩



/-! ### C3: mapping and ordering of the main pipeline -/

/-- The category precedence chain as the spec words it (first match wins),
for comparison with the source's `toLocationResult`. -/
def featureCategorySpec (item : RawItem) : FeatureCategory :=
  if item.«class» = "natural" then .natural
  else if item.«class» = "water" then .water
  else if item.«class» = "leisure" then .recreation
  else if item.type = "protected_area" ∨ item.type = "nature_reserve" then
    .natural
  else if item.type = "park" then .recreation
  else .administrative

/-- The icon assignment as the spec words it (peak-specific icon inside the
`natural` class, default icon otherwise), for comparison with the source's
`toLocationResult`. -/
def iconSpec (item : RawItem) : String :=
  if item.«class» = "natural" then
    (if item.type = "peak" then "🏔️" else "🌲")
  else if item.«class» = "water" then "🌊"
  else if item.«class» = "leisure" then "🏡"
  else if item.type = "protected_area" ∨ item.type = "nature_reserve" then
    "🌲"
  else if item.type = "park" then "🏞️"
  else "🏢"

theorem importanceLE_trans (a b c : LocationResult)
    (hab : importanceLE a b) (hbc : importanceLE b c) : importanceLE a c := by
  simp only [importanceLE, decide_eq_true_eq] at *
  exact le_trans hbc hab

theorem importanceLE_total (a b : LocationResult) :
    importanceLE a b || importanceLE b a := by
  simp only [importanceLE, Bool.or_eq_true, decide_eq_true_eq]
  exact le_total b.importance a.importance

/-- C3: the main pipeline maps every kept record field-by-field (lat/lon,
reordered bbox, importance defaulting to 0, category/icon by the stated
first-match-wins precedence) and returns a permutation of the mapped list
that is sorted descending by importance, with ties kept in upstream
order. -/
theorem C3_map_and_sort (data : List RawItem) :
    (searchResults data).Perm ((data.filter searchKeep).map toLocationResult) ∧
    (searchResults data).Pairwise
      (fun a b => b.importance ≤ a.importance) ∧
    (∀ v : ℚ, (searchResults data).filter (fun r => r.importance == v) =
      ((data.filter searchKeep).map toLocationResult).filter
        (fun r => r.importance == v)) ∧
    (∀ item : RawItem, toLocationResult item =
      { displayName := item.display_name
        latitude := item.lat
        longitude := item.lon
        bbox := reorderBbox item.boundingbox
        importance := item.importance.getD 0
        type := if item.type = "" then "place" else item.type
        featureCategory := featureCategorySpec item
        icon := iconSpec item }) := by
  refine ⟨List.mergeSort_perm _ importanceLE, ?_, ?_, ?_⟩
  · exact (List.sorted_mergeSort importanceLE_trans importanceLE_total _).imp
      (fun h => by simpa [importanceLE] using h)
  · intro v
    set mapped := (data.filter searchKeep).map toLocationResult with hm
    set p : LocationResult → Bool := fun r => r.importance == v with hp
    have hself : (mapped.filter p).filter p = mapped.filter p :=
      List.filter_eq_self.mpr fun a ha => (List.mem_filter.mp ha).2
    have hsub1 : List.Sublist (mapped.filter p)
        (mapped.mergeSort importanceLE) := by
      apply List.sublist_mergeSort importanceLE_trans importanceLE_total
      · apply List.pairwise_of_forall_mem_list
        intro a ha b hb
        have hav : a.importance = v := by
          have := (List.mem_filter.mp ha).2
          simpa [hp] using this
        have hbv : b.importance = v := by
          have := (List.mem_filter.mp hb).2
          simpa [hp] using this
        simp [importanceLE, hav, hbv]
      · exact List.filter_sublist _
    have hsub2 : List.Sublist (mapped.filter p)
        ((mapped.mergeSort importanceLE).filter p) := by
      have := hsub1.filter p
      rwa [hself] at this
    have hlen : (mapped.filter p).length =
        ((mapped.mergeSort importanceLE).filter p).length :=
      (((List.mergeSort_perm mapped importanceLE).filter p).length_eq).symm
    exact (hsub2.eq_of_length hlen).symm
  · intro item
    simp only [toLocationResult, featureCategorySpec, iconSpec,
      Bool.or_eq_true, beq_iff_eq]
    split_ifs <;> rfl

/-! ### C1: the fallback strategy -/

/-- The fallback re-filter as claim C1 words it: the step-2 type/class test
with the expanded allow-lists (natural/recreational types and classes
included).  Modelled from the spec for comparison with the source's
`fallbackResults`. -/
def fallbackSpecResults (data : List RawItem) : List LocationResult :=
  ((data.filter fun item =>
      validTypes.contains item.type ||
        validClasses.contains item.«class»).take 3).map toFallbackResult

/-- A raw record that fails the region test but passes the expanded step-2
type/class test; the fallback's narrower allow-lists reject it. -/
def lakeItem : RawItem :=
  { display_name := "Lake Tahoe, California"
    lat := 39, lon := -120
    type := "lake", «class» := "natural"
    addressState := "California"
    boundingbox := none, importance := none }

/-- Counterexample to C1 as stated: for the non-empty response `[lakeItem]`
the strict filter keeps nothing and the record passes the step-2 type/class
test, so the claim predicts the non-empty fallback list built from the
step-2 allow-lists — but `searchLocation` returns `[]`, because the code's
fallback filter uses the narrower administrative-only allow-lists, which
reject `type "lake"` / `class "natural"`. -/
theorem C1_counterexample :
    searchResults [lakeItem] = [] ∧
    ([lakeItem] : List RawItem) ≠ [] ∧
    (validTypes.contains lakeItem.type ||
      validClasses.contains lakeItem.«class») = true ∧
    fallbackSpecResults [lakeItem] ≠ [] ∧
    (searchLocation ⟨[], 0⟩ "lake tahoe" 0 (.response 200 [lakeItem])).result =
      .ok [] := by
  have h1 : List.filter searchKeep [lakeItem] = [] := by decide
  have h2 : List.filter fallbackKeep [lakeItem] = [] := by decide
  have h4 : searchResults [lakeItem] = [] := by simp [searchResults, h1]
  have h3 : fallbackResults [lakeItem] = [] := by simp [fallbackResults, h2]
  refine ⟨h4, by decide, by decide, by decide, ?_⟩
  rw [searchLocation_of_ok ⟨[], 0⟩ "lake tahoe" 200 [lakeItem] 0 (by decide)
    rfl rfl, if_neg]
  · simp [h4]
  · rintro ⟨-, -, hfb⟩
    exact hfb h3

/-- C1 (amended): when the strict filter keeps zero records and the upstream
response is non-empty, `searchLocation` re-filters the raw response using
only the type/class test with the fallback's narrower administrative-only
allow-lists (10 place types; classes place/administrative/boundary — not
the expanded natural/recreational lists), takes at most the first 3 matches
in upstream order, suffixes each display name with `" (Outside NY)"`,
forces the administrative category and default icon, caches that list under
the normalized query key, and returns it. -/
theorem C1_amended_fallback (st : ServiceState) (query : String) (now : ℤ)
    (status : ℕ) (data : List RawItem)
    (hq : jsTrim query ≠ "")
    (hc : st.cache.lookup (cacheKey query) = none)
    (hok : respOk status = true)
    (hstrict : searchResults data = [])
    (hne : data ≠ []) :
    (searchLocation st query now (.response status data)).result =
      .ok (fallbackResults data) ∧
    (searchLocation st query now (.response status data)).state.cache.lookup
      (cacheKey query) = some (fallbackResults data) ∧
    fallbackResults data =
      ((data.filter fallbackKeep).take 3).map toFallbackResult ∧
    (fallbackResults data).length ≤ 3 ∧
    (∀ r ∈ fallbackResults data,
      r.featureCategory = .administrative ∧ r.icon = "🏢" ∧
      ∃ item ∈ data, fallbackKeep item = true ∧
        r.displayName = item.display_name ++ " (Outside NY)") := by
  have hmem : ∀ r ∈ fallbackResults data,
      r.featureCategory = .administrative ∧ r.icon = "🏢" ∧
      ∃ item ∈ data, fallbackKeep item = true ∧
        r.displayName = item.display_name ++ " (Outside NY)" := by
    intro r hr
    obtain ⟨item, hitem, hmap⟩ := List.mem_map.mp hr
    have h1 : item ∈ data.filter fallbackKeep := List.mem_of_mem_take hitem
    have h2 := List.mem_filter.mp h1
    exact ⟨by rw [← hmap]; rfl, by rw [← hmap]; rfl,
      item, h2.1, h2.2, by rw [← hmap]; rfl⟩
  have hlen : (fallbackResults data).length ≤ 3 := by
    simp only [fallbackResults, List.length_map, List.length_take]
    omega
  have hmain := searchLocation_of_ok st query status data now hq hc hok
  by_cases hfb : fallbackResults data = []
  · rw [hmain, if_neg (by rintro ⟨-, -, h⟩; exact h hfb)]
    refine ⟨by rw [hstrict, hfb], ?_, rfl, hlen, hmem⟩
    have : searchResults data = fallbackResults data := by rw [hstrict, hfb]
    rw [this]
    exact List.lookup_cons_self
  · rw [hmain, if_pos ⟨hstrict, hne, hfb⟩]
    exact ⟨rfl, List.lookup_cons_self, rfl, hlen, hmem⟩

/-- A raw record passing the fallback type/class test but not the region
test. -/
def bostonItem : RawItem :=
  { display_name := "Boston, Suffolk County, Massachusetts"
    lat := 42, lon := -71
    type := "city", «class» := "place"
    addressState := "Massachusetts"
    boundingbox := none, importance := some 1 }

/-- Witness for the amended C1 at the concrete response `[bostonItem]`. -/
theorem C1_amended_fallback_witness :
    (searchLocation ⟨[], 0⟩ "springfield" 0
        (.response 200 [bostonItem])).result =
      .ok (fallbackResults [bostonItem]) ∧
    (searchLocation ⟨[], 0⟩ "springfield" 0
        (.response 200 [bostonItem])).state.cache.lookup
      (cacheKey "springfield") = some (fallbackResults [bostonItem]) ∧
    fallbackResults [bostonItem] =
      (([bostonItem].filter fallbackKeep).take 3).map toFallbackResult ∧
    (fallbackResults [bostonItem]).length ≤ 3 ∧
    (∀ r ∈ fallbackResults [bostonItem],
      r.featureCategory = .administrative ∧ r.icon = "🏢" ∧
      ∃ item ∈ [bostonItem], fallbackKeep item = true ∧
        r.displayName = item.display_name ++ " (Outside NY)") :=
  C1_amended_fallback ⟨[], 0⟩ "springfield" 0 200 [bostonItem] (by decide) rfl
    rfl
    (by
      have h : List.filter searchKeep [bostonItem] = [] := by decide
      simp [searchResults, h])
    (by decide)

/-! ### C9: empty successful results are cached -/

/-- C9: when a successful search yields zero strict results and zero
fallback results, the empty list is cached under the normalized query key;
a repeated query (same key) returns `[]` from the cache with no further
upstream request, and clearing the cache makes the next repeat issue a new
upstream request. -/
theorem C9_empty_result_cached (st : ServiceState) (q1 q2 : String)
    (now1 now2 : ℤ) (status : ℕ) (data : List RawItem) (o2 : FetchOutcome)
    (hq1 : jsTrim q1 ≠ "") (hq2 : jsTrim q2 ≠ "")
    (hkey : cacheKey q2 = cacheKey q1)
    (hc : st.cache.lookup (cacheKey q1) = none)
    (hok : respOk status = true)
    (hstrict : searchResults data = [])
    (hfb : fallbackResults data = []) :
    (searchLocation st q1 now1 (.response status data)).result = .ok [] ∧
    (searchLocation st q1 now1 (.response status data)).state.cache.lookup
      (cacheKey q1) = some [] ∧
    searchLocation ((searchLocation st q1 now1 (.response status data)).state)
        q2 now2 o2 =
      ⟨.ok [], (searchLocation st q1 now1 (.response status data)).state,
        0, 0⟩ ∧
    (searchLocation
        (clearCache
          ((searchLocation st q1 now1 (.response status data)).state))
        q2 now2 o2).upstreamRequests = 1 := by
  have hmain := searchLocation_of_ok st q1 status data now1 hq1 hc hok
  rw [hmain, if_neg (by rintro ⟨-, -, h⟩; exact h hfb), hstrict]
  refine ⟨rfl, List.lookup_cons_self, ?_, ?_⟩
  · exact searchLocation_of_hit _ q2 [] now2 o2 hq2
      (by rw [hkey]; exact List.lookup_cons_self)
  · exact (searchLocation_miss_effects _ q2 now2 o2 hq2
      (by simp [clearCache])).1

/-- Witness for C9 at the concrete response `[lakeItem]` (non-empty
upstream response, both filters empty). -/
theorem C9_empty_result_cached_witness :
    (searchLocation ⟨[], 0⟩ "lake george" 0
        (.response 200 [lakeItem])).result = .ok [] ∧
    (searchLocation ⟨[], 0⟩ "lake george" 0
        (.response 200 [lakeItem])).state.cache.lookup
      (cacheKey "lake george") = some [] ∧
    searchLocation
        ((searchLocation ⟨[], 0⟩ "lake george" 0
          (.response 200 [lakeItem])).state) "Lake George" 5 .failure =
      ⟨.ok [], (searchLocation ⟨[], 0⟩ "lake george" 0
        (.response 200 [lakeItem])).state, 0, 0⟩ ∧
    (searchLocation
        (clearCache ((searchLocation ⟨[], 0⟩ "lake george" 0
          (.response 200 [lakeItem])).state))
        "Lake George" 5 .failure).upstreamRequests = 1 :=
  C9_empty_result_cached ⟨[], 0⟩ "lake george" "Lake George" 0 5 200
    [lakeItem] .failure (by decide) (by decide) (by decide) rfl rfl
    (by
      have h : List.filter searchKeep [lakeItem] = [] := by decide
      simp [searchResults, h])
    (by
      have h : List.filter fallbackKeep [lakeItem] = [] := by decide
      simp [fallbackResults, h])

/-! ### C4: error mapping and no cache write on error -/

/-- C4: a failed `searchLocation` call raises exactly one `GeocodingError`
and returns no partial results: HTTP 429 maps to `RATE_LIMIT` with its
fixed message, any other non-2xx status to `API_ERROR`, and a
transport-level failure to `NETWORK_ERROR`; the cache is unchanged on
error, so a retried identical query issues a new upstream request. -/
theorem C4_error_mapping (st : ServiceState) (query : String)
    (now now2 : ℤ) (status : ℕ) (data : List RawItem) (o2 : FetchOutcome)
    (hq : jsTrim query ≠ "")
    (hc : st.cache.lookup (cacheKey query) = none) :
    ((searchLocation st query now .failure).result =
        .error ⟨"Unable to search for location.", .NETWORK_ERROR⟩ ∧
      (searchLocation st query now .failure).state.cache = st.cache) ∧
    (status = 429 →
      (searchLocation st query now (.response status data)).result =
          .error ⟨"Too many requests. Please wait a moment.", .RATE_LIMIT⟩ ∧
        (searchLocation st query now (.response status data)).state.cache =
          st.cache) ∧
    (respOk status = false → status ≠ 429 →
      (searchLocation st query now (.response status data)).result =
          .error ⟨"Location search service unavailable.", .API_ERROR⟩ ∧
        (searchLocation st query now (.response status data)).state.cache =
          st.cache) ∧
    (respOk status = false →
      (searchLocation
          ((searchLocation st query now (.response status data)).state)
          query now2 o2).upstreamRequests = 1) := by
  refine ⟨?_, ?_, ?_, ?_⟩
  · rw [searchLocation_of_failure st query now hq hc]
    exact ⟨rfl, rfl⟩
  · intro h429
    subst h429
    rw [searchLocation_of_429 st query data now hq hc]
    exact ⟨rfl, rfl⟩
  · intro hbad hne
    rw [searchLocation_of_badStatus st query status data now hq hc hbad hne]
    exact ⟨rfl, rfl⟩
  · intro hbad
    have hcache :
        (searchLocation st query now (.response status data)).state.cache =
          st.cache := by
      by_cases h429 : status = 429
      · subst h429
        rw [searchLocation_of_429 st query data now hq hc]
      · rw [searchLocation_of_badStatus st query status data now hq hc hbad
          h429]
    exact (searchLocation_miss_effects _ query now2 o2 hq
      (by rw [hcache]; exact hc)).1

/-- Witness for C4 at a concrete failing call (status 500, empty cache). -/
theorem C4_error_mapping_witness :
    ((searchLocation ⟨[], 0⟩ "albany" 0 .failure).result =
        .error ⟨"Unable to search for location.", .NETWORK_ERROR⟩ ∧
      (searchLocation ⟨[], 0⟩ "albany" 0 .failure).state.cache = []) ∧
    ((500 : ℕ) = 429 →
      (searchLocation ⟨[], 0⟩ "albany" 0 (.response 500 [])).result =
          .error ⟨"Too many requests. Please wait a moment.", .RATE_LIMIT⟩ ∧
        (searchLocation ⟨[], 0⟩ "albany" 0
          (.response 500 [])).state.cache = []) ∧
    (respOk 500 = false → (500 : ℕ) ≠ 429 →
      (searchLocation ⟨[], 0⟩ "albany" 0 (.response 500 [])).result =
          .error ⟨"Location search service unavailable.", .API_ERROR⟩ ∧
        (searchLocation ⟨[], 0⟩ "albany" 0
          (.response 500 [])).state.cache = []) ∧
    (respOk 500 = false →
      (searchLocation
          ((searchLocation ⟨[], 0⟩ "albany" 0 (.response 500 [])).state)
          "albany" 7 .failure).upstreamRequests = 1) :=
  C4_error_mapping ⟨[], 0⟩ "albany" 0 7 500 [] .failure (by decide) rfl

/-! ### C5: cache key and cache hits -/

/-- C5: the cache key is the lowercased, trimmed query; a hit returns the
cached list verbatim with no upstream request, no throttle sleep and no
state change, so two consecutive calls whose queries agree up to case and
surrounding whitespace issue exactly one upstream request, and a
`clearCache` followed by a repeat issues a second one. -/
theorem C5_cache_behavior (st : ServiceState) (q1 q2 q3 : String)
    (now1 now2 now3 : ℤ) (status : ℕ) (data : List RawItem)
    (o2 o3 : FetchOutcome)
    (hq1 : jsTrim q1 ≠ "") (hq2 : jsTrim q2 ≠ "") (hq3 : jsTrim q3 ≠ "")
    (hkey2 : cacheKey q2 = cacheKey q1) (hkey3 : cacheKey q3 = cacheKey q1)
    (hc : st.cache.lookup (cacheKey q1) = none)
    (hok : respOk status = true) :
    cacheKey q1 = jsTrim (jsToLower q1) ∧
    (∀ (l : List LocationResult) (st2 : ServiceState) (q : String) (now : ℤ)
        (o : FetchOutcome), jsTrim q ≠ "" →
      st2.cache.lookup (cacheKey q) = some l →
      searchLocation st2 q now o = ⟨.ok l, st2, 0, 0⟩) ∧
    (searchLocation st q1 now1 (.response status data)).upstreamRequests =
      1 ∧
    searchLocation ((searchLocation st q1 now1 (.response status data)).state)
        q2 now2 o2 =
      ⟨(searchLocation st q1 now1 (.response status data)).result,
        (searchLocation st q1 now1 (.response status data)).state, 0, 0⟩ ∧
    (searchLocation
        (clearCache
          ((searchLocation st q1 now1 (.response status data)).state))
        q3 now3 o3).upstreamRequests = 1 := by
  refine ⟨rfl, ?_, ?_, ?_, ?_⟩
  · intro l st2 q now o hq hsome
    exact searchLocation_of_hit st2 q l now o hq hsome
  · exact (searchLocation_miss_effects st q1 now1 _ hq1 hc).1
  · rw [searchLocation_of_ok st q1 status data now1 hq1 hc hok]
    split
    · exact searchLocation_of_hit _ q2 _ now2 o2 hq2
        (by rw [hkey2]; exact List.lookup_cons_self)
    · exact searchLocation_of_hit _ q2 _ now2 o2 hq2
        (by rw [hkey2]; exact List.lookup_cons_self)
  · exact (searchLocation_miss_effects _ q3 now3 o3 hq3
      (by simp [clearCache])).1

/-- Witness for C5: the queries `"Albany"`, `"  ALBANY "`, `"albany"` share
the cache key `"albany"`. -/
theorem C5_cache_behavior_witness :
    cacheKey "Albany" = jsTrim (jsToLower "Albany") ∧
    (∀ (l : List LocationResult) (st2 : ServiceState) (q : String) (now : ℤ)
        (o : FetchOutcome), jsTrim q ≠ "" →
      st2.cache.lookup (cacheKey q) = some l →
      searchLocation st2 q now o = ⟨.ok l, st2, 0, 0⟩) ∧
    (searchLocation ⟨[], 0⟩ "Albany" 0
      (.response 200 [])).upstreamRequests = 1 ∧
    searchLocation
        ((searchLocation ⟨[], 0⟩ "Albany" 0 (.response 200 [])).state)
        "  ALBANY " 3 .failure =
      ⟨(searchLocation ⟨[], 0⟩ "Albany" 0 (.response 200 [])).result,
        (searchLocation ⟨[], 0⟩ "Albany" 0 (.response 200 [])).state,
        0, 0⟩ ∧
    (searchLocation
        (clearCache
          ((searchLocation ⟨[], 0⟩ "Albany" 0 (.response 200 [])).state))
        "albany" 9 .failure).upstreamRequests = 1 :=
  C5_cache_behavior ⟨[], 0⟩ "Albany" "  ALBANY " "albany" 0 3 9 200 []
    .failure .failure (by decide) (by decide) (by decide) (by decide)
    (by decide) rfl rfl

/-! ### C6: request throttling -/

/-- Effects common to every `reverseGeocode` call: the shared throttle
marker is advanced to the dispatch time, exactly one upstream request is
issued, and the sleep is the throttle delay. -/
theorem reverseGeocode_effects (st : ServiceState) (latitude longitude : ℚ)
    (now : ℤ) (outcome : ReverseOutcome) :
    (reverseGeocode st latitude longitude now outcome).state =
      ⟨st.cache, dispatchTime st.lastRequestTime now⟩ ∧
    (reverseGeocode st latitude longitude now outcome).upstreamRequests =
      1 ∧
    (reverseGeocode st latitude longitude now outcome).sleepMs =
      throttleDelay st.lastRequestTime now := by
  cases outcome with
  | failure => exact ⟨rfl, rfl, rfl⟩
  | response status data =>
    simp only [reverseGeocode]
    split_ifs <;> exact ⟨rfl, rfl, rfl⟩

/-- C6: before every upstream call the service sleeps for the remaining
delta whenever less than the 1000 ms minimum interval has elapsed since the
shared marker, then sets the marker to the dispatch time — forward search
and reverse geocoding update the same marker — so two sequential upstream
dispatches are at least the minimum interval apart. -/
theorem C6_throttle (last now1 now2 : ℤ) (st : ServiceState) (q : String)
    (o : FetchOutcome) (lat lon : ℚ) (ro : ReverseOutcome)
    (hq : jsTrim q ≠ "") (hc : st.cache.lookup (cacheKey q) = none) :
    (now1 - last < minRequestInterval →
      throttleDelay last now1 = minRequestInterval - (now1 - last)) ∧
    (minRequestInterval ≤ now1 - last → throttleDelay last now1 = 0) ∧
    minRequestInterval ≤
      dispatchTime (dispatchTime last now1) now2 - dispatchTime last now1 ∧
    (searchLocation st q now1 o).state.lastRequestTime =
      dispatchTime st.lastRequestTime now1 ∧
    (reverseGeocode st lat lon now1 ro).state.lastRequestTime =
      dispatchTime st.lastRequestTime now1 := by
  refine ⟨?_, ?_, ?_, ?_, ?_⟩
  · intro h
    simp [throttleDelay, h]
  · intro h
    simp [throttleDelay, not_lt.mpr h]
  · simp only [dispatchTime, throttleDelay, minRequestInterval]
    split_ifs <;> omega
  · exact (searchLocation_miss_effects st q now1 o hq hc).2.1
  · rw [(reverseGeocode_effects st lat lon now1 ro).1]

/-- Witness for C6 at concrete times (second call arrives 500 ms after an
idle marker). -/
theorem C6_throttle_witness :
    ((500 : ℤ) - 0 < minRequestInterval →
      throttleDelay 0 500 = minRequestInterval - (500 - 0)) ∧
    (minRequestInterval ≤ (500 : ℤ) - 0 → throttleDelay 0 500 = 0) ∧
    minRequestInterval ≤
      dispatchTime (dispatchTime 0 500) 1200 - dispatchTime 0 500 ∧
    (searchLocation ⟨[], 0⟩ "albany" 500 .failure).state.lastRequestTime =
      dispatchTime 0 500 ∧
    (reverseGeocode ⟨[], 0⟩ 42 (-73) 500 .failure).state.lastRequestTime =
      dispatchTime 0 500 :=
  C6_throttle 0 500 1200 ⟨[], 0⟩ "albany" .failure 42 (-73) .failure
    (by decide) rfl

/-! ### C7: reverse geocoding degrades silently -/

/-- C7: `reverseGeocode` resolves to `none` (never an error) on a transport
failure or any non-2xx status, touches no cache, and on a success response
with a display name returns a single `LocationResult` tagged with the
administrative category and the default reverse icon, with no region
filtering. -/
theorem C7_reverse_silent (st : ServiceState) (lat lon : ℚ) (now : ℤ)
    (status : ℕ) (data : RawItem)
    (hbad : respOk status = false) (hname : data.display_name ≠ "") :
    (reverseGeocode st lat lon now .failure).result = none ∧
    (reverseGeocode st lat lon now (.response status data)).result = none ∧
    (∀ o : ReverseOutcome,
      (reverseGeocode st lat lon now o).state.cache = st.cache) ∧
    (∀ status2 : ℕ, respOk status2 = true →
      (reverseGeocode st lat lon now (.response status2 data)).result =
        some { displayName := data.display_name
               latitude := data.lat
               longitude := data.lon
               bbox := reorderBbox data.boundingbox
               importance := data.importance.getD 0
               type := if data.type = "" then "place" else data.type
               featureCategory := .administrative
               icon := "📍" }) := by
  refine ⟨rfl, ?_, ?_, ?_⟩
  · simp [reverseGeocode, hbad]
  · intro o
    rw [(reverseGeocode_effects st lat lon now o).1]
  · intro status2 hok2
    simp [reverseGeocode, hok2, hname, beq_iff_eq]

/-- Witness for C7 at status 500 and a concrete response record. -/
theorem C7_reverse_silent_witness :
    (reverseGeocode ⟨[], 0⟩ 42 (-73) 0 .failure).result = none ∧
    (reverseGeocode ⟨[], 0⟩ 42 (-73) 0
      (.response 500 bostonItem)).result = none ∧
    (∀ o : ReverseOutcome,
      (reverseGeocode ⟨[], 0⟩ 42 (-73) 0 o).state.cache = []) ∧
    (∀ status2 : ℕ, respOk status2 = true →
      (reverseGeocode ⟨[], 0⟩ 42 (-73) 0
          (.response status2 bostonItem)).result =
        some { displayName := bostonItem.display_name
               latitude := bostonItem.lat
               longitude := bostonItem.lon
               bbox := reorderBbox bostonItem.boundingbox
               importance := bostonItem.importance.getD 0
               type := if bostonItem.type = "" then "place"
                       else bostonItem.type
               featureCategory := .administrative
               icon := "📍" }) :=
  C7_reverse_silent ⟨[], 0⟩ 42 (-73) 0 500 bostonItem rfl (by decide)


end PrimCamp
